import Mathlib

/-!
Verification development for the playlist-ingestion core of the
`pvr.iptvsimple` repository (files `src/iptvsimple/PlaylistLoader.cpp` and
`src/PVRIptvData.cpp`).  C++ strings are modelled as lists of characters,
machine integers as `Int`, and `double` values arising from `atof` as exact
rationals; truncating casts are modelled explicitly.  Functions of the
repository that are not part of the two source files (store classes, small
`Channel` accessors, header constants) are modelled from the specification
and marked as such in their doc comments.
-/

namespace IptvSimple

/-- Strings of the C++ source are modelled as lists of characters. -/
abbrev Str := List Char

/-- Coerce a Lean string literal into the model's string type. -/
def strL (s : String) : Str := s.data

/-- Model of `std::string::find(char)`: index of the first occurrence. -/
def findChar (c : Char) : Str → Option Nat
  | [] => none
  | a :: tl => if a = c then some 0 else (findChar c tl).map (· + 1)

/-- Model of `std::string::rfind(char)`: index of the last occurrence. -/
def rfindChar (c : Char) : Str → Option Nat
  | [] => none
  | a :: tl =>
    match rfindChar c tl with
    | some i => some (i + 1)
    | none => if a = c then some 0 else none

/-- Model of `std::string::find(str)`: index of the first occurrence of a
substring (`some 0` for the empty pattern, as in C++). -/
def findSub (pat : Str) : Str → Option Nat
  | [] => if pat.isPrefixOf ([] : Str) then some 0 else none
  | a :: tl => if pat.isPrefixOf (a :: tl) then some 0 else (findSub pat tl).map (· + 1)

/-- Model of `std::string::find(char, pos)`: first occurrence at or after
`start`. -/
def findCharFrom (c : Char) (l : Str) (start : Nat) : Option Nat :=
  (findChar c (l.drop start)).map (· + start)

/-- Model of `std::string::substr(pos, len)`. -/
def substrLen (l : Str) (pos len : Nat) : Str := (l.drop pos).take len

/-- Model of `kodi::tools::StringUtils::StartsWith`. -/
def startsWithL (pre l : Str) : Bool := pre.isPrefixOf l

/-- Remove the given characters from the front of a string
(`StringUtils::TrimLeft` with an explicit character set). -/
def trimLeftChars (cs : Str) : Str → Str
  | [] => []
  | a :: tl => if a ∈ cs then trimLeftChars cs tl else a :: tl

/-- Remove the given characters from the end of a string
(`StringUtils::TrimRight` with an explicit character set). -/
def trimRightChars (cs : Str) (l : Str) : Str :=
  (trimLeftChars cs l.reverse).reverse

/-- The characters accepted by `isspace` in the C locale. -/
def spaceChars : Str := [' ', '\t', '\n', '\x0b', '\x0c', '\r']

/-- Model of `StringUtils::Trim`: strip `isspace` characters on both sides. -/
def trimWS (l : Str) : Str := trimRightChars spaceChars (trimLeftChars spaceChars l)

/-- Model of `StringUtils::ToLower` (ASCII lowering, as used by the source
for its ASCII-only tokens). -/
def toLowerL (l : Str) : Str := l.map Char.toLower

/-- Model of `StringUtils::EqualsNoCase`. -/
def eqNoCase (a b : Str) : Bool := toLowerL a == toLowerL b

/-- Model of `kodi::UnknownToUTF8`.  The model works on decoded character
sequences, so the encoding conversion is the identity. -/
def unknownToUTF8 (l : Str) : Str := l

/-- Numeric value of a run of decimal digits. -/
def digitsToNat (ds : Str) : Nat := ds.foldl (fun a c => a * 10 + (c.toNat - 48)) 0

/-- Model of C `atoi`: skip `isspace` characters, read an optional sign and
a run of decimal digits; no digits yields `0`. -/
def atoiL (l : Str) : Int :=
  let l := trimLeftChars spaceChars l
  match l with
  | '-' :: tl => -(digitsToNat (tl.takeWhile Char.isDigit) : Int)
  | '+' :: tl => (digitsToNat (tl.takeWhile Char.isDigit) : Int)
  | _ => (digitsToNat (l.takeWhile Char.isDigit) : Int)

/-- Model of C `strtoll` with base 10, as used for media sizes. -/
def strtollL (l : Str) : Int := atoiL l

/-- An exact rational kept as an unnormalised numerator/denominator pair;
the model of the `double` values `atof` produces. -/
structure RatPair where
  num : Int := 0
  den : Int := 1
deriving DecidableEq

/-- Multiplication of an `atof` result by an integer constant (the
`* 3600.0` of the source). -/
def RatPair.mulInt (q : RatPair) (n : Int) : RatPair := { q with num := q.num * n }

/-- Model of a C truncating cast `static_cast<int>(double)`: division of
the exact value, rounded toward zero (`Int.tdiv`). -/
def RatPair.trunc (q : RatPair) : Int := q.num.tdiv q.den

/-- Model of C `atof` on the decimal forms the playlists use
(`[sign] digits [. digits]`); the result is kept as an exact rational.
Exponent and hexadecimal forms do not occur in the modelled inputs. -/
def atofL (l : Str) : RatPair :=
  let l := trimLeftChars spaceChars l
  let signAndRest : Int × Str :=
    match l with
    | '-' :: tl => (-1, tl)
    | '+' :: tl => (1, tl)
    | _ => (1, l)
  let ip := signAndRest.2.takeWhile Char.isDigit
  let rest := signAndRest.2.dropWhile Char.isDigit
  let fp : Str :=
    match rest with
    | '.' :: tl => tl.takeWhile Char.isDigit
    | _ => []
  { num := signAndRest.1 * ((digitsToNat ip * 10 ^ fp.length + digitsToNat fp : Nat) : Int),
    den := ((10 ^ fp.length : Nat) : Int) }

/-- `std::getline` over a string stream: split on newline, where a trailing
newline does not produce an extra empty line. -/
def getLinesAux : Str → Str → List Str
  | [], acc => [acc.reverse]
  | c :: tl, acc =>
    if c = '\n' then acc.reverse :: getLinesAux tl [] else getLinesAux tl (c :: acc)

/-- The successive lines `std::getline` yields for a given stream content. -/
def getLines (l : Str) : List Str :=
  match l with
  | [] => []
  | _ =>
    if l.getLast? = some '\n' then (getLinesAux l []).dropLast else getLinesAux l []

/-- `std::getline(stream, part, sep)`: like `getLines` but with an arbitrary
separator, used for splitting group-name lists on a semicolon. -/
def getPartsAux (sep : Char) : Str → Str → List Str
  | [], acc => [acc.reverse]
  | c :: tl, acc =>
    if c = sep then acc.reverse :: getPartsAux sep tl [] else getPartsAux sep tl (c :: acc)

/-- The parts `std::getline` with separator `sep` yields for a content. -/
def getParts (sep : Char) (l : Str) : List Str :=
  match l with
  | [] => []
  | _ =>
    if l.getLast? = some sep then (getPartsAux sep l []).dropLast else getPartsAux sep l []

/-- Model of `StringUtils::Split` on a single separator character (used for
provider country and language lists). -/
def splitFull (sep : Char) (l : Str) : List Str :=
  match l with
  | [] => []
  | _ => getPartsAux sep l []

/-!
**Marker constants**

Modelled from the spec: the marker constants live in `PlaylistLoader.h`,
which is not under `src/`.  The line markers are fixed by the comments in
`PlaylistLoader.cpp` (`//#EXTM3U`, `//#KODIPROP:`, ...) and the attribute
markers by the spec's list of recognised `#EXTINF` attribute keys, each of
which appears in the line as `key=` followed by the value.
-/

def M3U_START_MARKER : Str := ("#EXTM3U".data)
def M3U_INFO_MARKER : Str := ("#EXTINF".data)
def M3U_GROUP_MARKER : Str := ("#EXTGRP:".data)
def TVG_INFO_ID_MARKER : Str := ("tvg-id=".data)
def TVG_INFO_ID_MARKER_UC : Str := ("tvg-ID=".data)
def TVG_INFO_NAME_MARKER : Str := ("tvg-name=".data)
def TVG_INFO_LOGO_MARKER : Str := ("tvg-logo=".data)
def TVG_INFO_SHIFT_MARKER : Str := ("tvg-shift=".data)
def TVG_INFO_CHNO_MARKER : Str := ("tvg-chno=".data)
def TVG_INFO_REC : Str := ("tvg-rec=".data)
def CHANNEL_NUMBER_MARKER : Str := ("channel-number=".data)
def KODIPROP_MARKER : Str := ("#KODIPROP:".data)
def EXTVLCOPT_MARKER : Str := ("#EXTVLCOPT:".data)
def EXTVLCOPT_DASH_MARKER : Str := ("#EXTVLCOPT--".data)
def RADIO_MARKER : Str := ("radio=".data)
def PLAYLIST_TYPE_MARKER : Str := ("#EXT-X-PLAYLIST-TYPE:".data)
def CATCHUP : Str := ("catchup=".data)
def CATCHUP_TYPE : Str := ("catchup-type=".data)
def CATCHUP_DAYS : Str := ("catchup-days=".data)
def CATCHUP_SOURCE : Str := ("catchup-source=".data)
def CATCHUP_SIPTV : Str := ("catchup-siptv=".data)
def CATCHUP_CORRECTION : Str := ("catchup-correction=".data)
def PROVIDER : Str := ("provider=".data)
def PROVIDER_TYPE : Str := ("provider-type=".data)
def PROVIDER_LOGO : Str := ("provider-logo=".data)
def PROVIDER_COUNTRIES : Str := ("provider-countries=".data)
def PROVIDER_LANGUAGES : Str := ("provider-languages=".data)
def TVG_URL_MARKER : Str := ("url-tvg=".data)
def TVG_URL_OTHER_MARKER : Str := ("x-tvg-url=".data)
def GROUP_NAME_MARKER : Str := ("group-title=".data)
def MEDIA : Str := ("media=".data)
def MEDIA_DIR : Str := ("media-dir=".data)
def MEDIA_SIZE : Str := ("media-size=".data)

/-- Modelled from the spec: the separator character for the multi-valued
provider fields (`provider-countries`, `provider-languages`). -/
def PROVIDER_STRING_TOKEN_SEPARATOR : Char := ';'

/-- Stream-property key for the realtime flag (from the PVR API headers). -/
def PVR_STREAM_PROPERTY_ISREALTIMESTREAM : Str := ("isrealtimestream".data)

/-- Stream-property key for the inputstream selector (from the PVR API
headers). -/
def PVR_STREAM_PROPERTY_INPUTSTREAM : Str := ("inputstream".data)

/-- Invalid provider unique id (from the PVR API headers). -/
def PVR_PROVIDER_INVALID_UID : Int := -1

/-- Modelled from the spec: the sentinel value of `catchupDays` meaning "no
day constraint" (`IGNORE_CATCHUP_DAYS`, declared outside `src/`). -/
def IGNORE_CATCHUP_DAYS : Int := -1

/-!
**Data model**
-/

/-- The catchup-mode enumeration of `Channel.h` (the spec's closed set of
modes plus the disabled state). -/
inductive CatchupMode
  | DISABLED
  | DEFAULT
  | APPEND
  | SHIFT
  | FLUSSONIC
  | XTREAM_CODES
  | TIMESHIFT
  | VOD
deriving DecidableEq

/-- The provider-type enumeration of the PVR API. -/
inductive ProviderType
  | ADDON
  | SATELLITE
  | CABLE
  | AERIAL
  | IPTV
  | UNKNOWN
deriving DecidableEq

/-- The channel record.  Fields follow the spec's data model; the setters
called by `ParseIntoChannel` are plain field writes.  The modelled
`SetIconPathFromTvgLogo` (whose body is outside `src/`) records its two
arguments verbatim in `iconTvgLogo`/`iconNameArg`. -/
structure Channel where
  uniqueId : Int := 0
  channelNumber : Int := 0
  subChannelNumber : Int := 0
  radio : Bool := false
  channelName : Str := []
  tvgId : Str := []
  tvgName : Str := []
  tvgShift : Int := 0
  catchupSource : Str := []
  catchupDays : Int := 0
  catchupMode : CatchupMode := CatchupMode.DISABLED
  hasCatchup : Bool := false
  catchupTSStream : Bool := false
  catchupCorrectionSecs : Int := 0
  providerUniqueId : Int := PVR_PROVIDER_INVALID_UID
  iconTvgLogo : Str := []
  iconNameArg : Str := []
  streamURL : Str := []
  properties : List (Str × Str) := []
deriving DecidableEq

/-- Modelled from the spec: `Channel::SetIconPathFromTvgLogo` lives outside
`src/`; the model records the call's arguments without interpreting them
(no claim depends on logo resolution). -/
def Channel.setIconPathFromTvgLogo (c : Channel) (tvgLogo name : Str) : Channel :=
  { c with iconTvgLogo := tvgLogo, iconNameArg := name }

/-- Model of `Channel::AddProperty`: append a key/value pair. -/
def Channel.addProperty (c : Channel) (k v : Str) : Channel :=
  { c with properties := c.properties ++ [(k, v)] }

/-- The media-entry record (identity and display fields as for channels,
plus directory and size). -/
structure MediaEntry where
  directory : Str := []
  sizeInBytes : Int := 0
  streamURL : Str := []
  channelName : Str := []
  tvgId : Str := []
  tvgName : Str := []
deriving DecidableEq

/-- Modelled from the spec: `MediaEntry::UpdateFrom(Channel)` folds the
scratch channel's identity and display fields into the media entry. -/
def MediaEntry.updateFrom (m : MediaEntry) (c : Channel) : MediaEntry :=
  { m with channelName := c.channelName, tvgId := c.tvgId, tvgName := c.tvgName }

/-- The provider record. -/
structure Provider where
  uniqueId : Int := 0
  name : Str := []
  ptype : ProviderType := ProviderType.UNKNOWN
  iconPath : Str := []
  countries : List Str := []
  languages : List Str := []
deriving DecidableEq

/-- The channel-group record. -/
structure ChannelGroup where
  uniqueId : Int := 0
  groupName : Str := []
  radio : Bool := false
  memberIds : List Int := []
deriving DecidableEq

/-- The playlist-wide defaults read from the `#EXTM3U` header line. -/
structure M3UHeaderStrings where
  m_catchup : Str := []
  m_catchupDays : Str := []
  m_catchupSource : Str := []
deriving DecidableEq

/-- The configuration values the two source files consult.  The settings
class itself is outside `src/`; each field models one getter, with the
meaning the spec gives it. -/
structure Settings where
  m3uLocation : Str := []
  catchupEnabled : Bool := false
  catchupDays : Int := 0
  catchupCorrectionSecs : Int := 0
  catchupOnlyOnFinishedProgrammes : Bool := false
  numberChannelsByM3uOrderOnly : Bool := false
  logoPathTypeLocal : Bool := false
  useLocalLogosOnlyIgnoreM3U : Bool := false
  defaultProviderName : Str := []
  mediaEnabled : Bool := true
  showVodAsRecordings : Bool := true
  allowGroupLessChannels : Bool := true
  allowedGroupsTv : Option (List Str) := none
  allowedGroupsRadio : Option (List Str) := none
  tvGroupsEnabled : Bool := true
  radioGroupsEnabled : Bool := true
deriving DecidableEq

/-!
**Marker reader (`PlaylistLoader::ReadMarkerValue`, source lines 538-563)**
-/

/-- Embedding of `PlaylistLoader::ReadMarkerValue`: find the marker, advance
past it, then read up to the closing quote (when the value starts with a
double quote) or up to the next space, falling back to the end of the line
when the terminator is missing. -/
def ReadMarkerValue (line markerName : Str) : Str :=
  match findSub markerName line with
  | none => []
  | some i =>
    let ms := i + markerName.length
    if ms < line.length then
      if line.get? ms = some '"' then
        let me := (findCharFrom '"' line (ms + 1)).getD line.length
        substrLen line (ms + 1) (me - (ms + 1))
      else
        let me := (findCharFrom ' ' line ms).getD line.length
        substrLen line ms (me - ms)
    else []

/-- The spec's contract for the marker reader, written from its words:
locate the first occurrence of the marker, advance past it; empty when the
marker is absent or nothing follows; a quoted value runs to the closing
quote or to the end of the line; an unquoted value runs to the next
space. -/
def readMarkerValueSpec (line markerName : Str) : Str :=
  match findSub markerName line with
  | none => []
  | some i =>
    match line.drop (i + markerName.length) with
    | [] => []
    | a :: tl =>
      if a = '"' then tl.takeWhile (fun c => c != '"')
      else (a :: tl).takeWhile (fun c => c != ' ')

/-!
**Channel builder (`PlaylistLoader::ParseIntoChannel`, source lines 236-459)**

The function is embedded as a composition of stage functions, each
transliterating one contiguous region of the source.
-/

/-- Source lines 238-255: the chosen comma index.  Default to the last
comma; when the line contains a double quote and the trimmed tail after the
last quote starts with a comma, relocate to the first comma after that
quote.  (The fallback value of the inner `find` is unreachable because the
trimmed tail starts with a comma.) -/
def chosenCommaIndex (line : Str) : Option Nat :=
  let commaIndex := rfindChar ',' line
  match rfindChar '"' line with
  | none => commaIndex
  | some lastQuoteIndex =>
    let possibleName := line.drop (lastQuoteIndex + 1)
    let commaName := trimWS possibleName
    if startsWithL (",".data) commaName then
      some (lastQuoteIndex + (findChar ',' possibleName).getD possibleName.length + 1)
    else commaIndex

/-- Source lines 313-325: channel-number assignment from `tvg-chno` /
`channel-number`, split on a dot. -/
def applyChannelNumber (s : Settings) (strChnlNo : Str) (c : Channel) : Channel :=
  if strChnlNo ≠ [] ∧ ¬s.numberChannelsByM3uOrderOnly then
    match findChar '.' strChnlNo with
    | some f =>
      { c with channelNumber := atoiL (substrLen strChnlNo 0 f),
               subChannelNumber := atoiL (strChnlNo.drop (f + 1)) }
    | none => { c with channelNumber := atoiL strChnlNo }
  else c

/-- Source lines 274, 292-297: the effective catchup token — the `catchup`
attribute, else `catchup-type`, else the non-empty header default. -/
def effectiveCatchup (header : M3UHeaderStrings) (infoLine : Str) : Str :=
  let c := ReadMarkerValue infoLine CATCHUP
  let c := if c = [] then ReadMarkerValue infoLine CATCHUP_TYPE else c
  if c = [] ∧ header.m_catchup ≠ [] then header.m_catchup else c

/-- Source lines 350-372: recognised catchup tokens set `hasCatchup`, the
mode mapping, and the Flussonic transport-stream flag. -/
def applyCatchupModeFlags (strCatchup : Str) (c : Channel) : Channel :=
  let c :=
    if eqNoCase strCatchup ("default".data) || eqNoCase strCatchup ("append".data) ||
       eqNoCase strCatchup ("shift".data) || eqNoCase strCatchup ("flussonic".data) ||
       eqNoCase strCatchup ("flussonic-hls".data) || eqNoCase strCatchup ("flussonic-ts".data) ||
       eqNoCase strCatchup ("fs".data) || eqNoCase strCatchup ("xc".data) ||
       eqNoCase strCatchup ("vod".data)
    then { c with hasCatchup := true } else c
  let c :=
    if eqNoCase strCatchup ("default".data) then { c with catchupMode := CatchupMode.DEFAULT }
    else if eqNoCase strCatchup ("append".data) then { c with catchupMode := CatchupMode.APPEND }
    else if eqNoCase strCatchup ("shift".data) then { c with catchupMode := CatchupMode.SHIFT }
    else if eqNoCase strCatchup ("flussonic".data) || eqNoCase strCatchup ("flussonic-hls".data) ||
            eqNoCase strCatchup ("flussonic-ts".data) || eqNoCase strCatchup ("fs".data)
      then { c with catchupMode := CatchupMode.FLUSSONIC }
    else if eqNoCase strCatchup ("xc".data) then { c with catchupMode := CatchupMode.XTREAM_CODES }
    else if eqNoCase strCatchup ("vod".data) then { c with catchupMode := CatchupMode.VOD }
    else c
  if eqNoCase strCatchup ("flussonic-ts".data) || eqNoCase strCatchup ("fs".data)
  then { c with catchupTSStream := true } else c

/-- Source lines 374-378: xeev-style catchup from the header flag and a
channel-name prefix. -/
def applyXeevCatchup (xeevCatchup : Bool) (channelName : Str) (c : Channel) : Channel :=
  if ¬c.hasCatchup ∧ xeevCatchup ∧
     (startsWithL ("* ".data) channelName || startsWithL ("[+] ".data) channelName)
  then { c with hasCatchup := true, catchupMode := CatchupMode.XTREAM_CODES }
  else c

/-- Source lines 380-385: the siptv timeshift day count, with `tvg-rec` as
legacy fallback. -/
def siptvTimeshiftDays (strCatchupSiptv strTvgRec : Str) : Int :=
  let d : Int := if strCatchupSiptv ≠ [] then atoiL strCatchupSiptv else 0
  if strTvgRec ≠ [] ∧ d = 0 then atoiL strTvgRec else d

/-- Source lines 387-397: the catchup-days chain.  The second branch
mirrors the source exactly: the header fallback is gated on the header
`catchup-source` being non-empty (not the header `catchup-days`). -/
def applyCatchupDays (s : Settings) (header : M3UHeaderStrings) (strCatchupDays : Str)
    (siptvDays : Int) (c : Channel) : Channel :=
  if strCatchupDays ≠ [] then { c with catchupDays := atoiL strCatchupDays }
  else if header.m_catchupSource ≠ [] then { c with catchupDays := atoiL header.m_catchupDays }
  else if c.catchupMode = CatchupMode.VOD then { c with catchupDays := IGNORE_CATCHUP_DAYS }
  else if siptvDays > 0 then { c with catchupDays := siptvDays }
  else { c with catchupDays := s.catchupDays }

/-- Source lines 399-406: siptv `timeshift="days"` implies mode TIMESHIFT
when no other catchup mode was selected. -/
def applySiptvTimeshift (siptvDays : Int) (c : Channel) : Channel :=
  if ¬c.hasCatchup ∧ siptvDays > 0 then
    { c with catchupMode := CatchupMode.TIMESHIFT, hasCatchup := true }
  else c

/-- Modelled from the spec: `Providers::AddProvider` (outside `src/`).  An
empty name yields no provider; an existing name returns its entry; a new
name is appended with a unique id assigned monotonically from 1.  The
result pairs the updated registry with the index of the entry. -/
def AddProvider (ps : List Provider) (name : Str) : List Provider × Option Nat :=
  if name = [] then (ps, none)
  else
    match ps.findIdx? (fun p => p.name == name) with
    | some i => (ps, some i)
    | none => (ps ++ [{ name := name, uniqueId := (ps.length : Int) + 1 }], some ps.length)

/-- Source lines 417-428: the provider-type token mapping (applied to the
lowered token). -/
def providerTypeFromToken (t : Str) : ProviderType :=
  if t = ("addon".data) then ProviderType.ADDON
  else if t = ("satellite".data) then ProviderType.SATELLITE
  else if t = ("cable".data) then ProviderType.CABLE
  else if t = ("aerial".data) then ProviderType.AERIAL
  else if t = ("iptv".data) then ProviderType.IPTV
  else ProviderType.UNKNOWN

/-- Source lines 412-444: update the registered provider's type, icon,
countries and languages from the optional attributes. -/
def updateProviderFields (strProviderType strProviderIconPath strProviderCountries
    strProviderLanguages : Str) (p : Provider) : Provider :=
  let t := toLowerL strProviderType
  let p := if t ≠ [] then { p with ptype := providerTypeFromToken t } else p
  let p := if strProviderIconPath ≠ [] then { p with iconPath := strProviderIconPath } else p
  let p := if strProviderCountries ≠ [] then
      { p with countries := splitFull PROVIDER_STRING_TOKEN_SEPARATOR strProviderCountries }
    else p
  if strProviderLanguages ≠ [] then
    { p with languages := splitFull PROVIDER_STRING_TOKEN_SEPARATOR strProviderLanguages }
  else p

/-- Source lines 408-447 (registration part): register the provider by
name, apply the optional provider attributes to the registered entry, and
link the channel to the provider's unique id. -/
def registerProvider (providers : List Provider) (strProviderName strProviderType
    strProviderIconPath strProviderCountries strProviderLanguages : Str) (c : Channel) :
    List Provider × Channel :=
  let reg := AddProvider providers strProviderName
  match reg.2 with
  | none => (reg.1, c)
  | some i =>
    match reg.1.get? i with
    | none => (reg.1, c)
    | some p =>
      (reg.1.set i (updateProviderFields strProviderType strProviderIconPath
          strProviderCountries strProviderLanguages p),
       { c with providerUniqueId := p.uniqueId })

/-- The outputs of `ParseIntoChannel`: the returned `group-title` value and
the final states of the by-reference parameters and the provider
registry. -/
structure ParseResult where
  groupTitle : Str
  channel : Channel
  mediaEntry : MediaEntry
  groupIdList : List Int
  providers : List Provider
deriving DecidableEq

/-- Source lines 259-455: the body of `ParseIntoChannel` once the colon and
the chosen comma indices are known to form a well-formed line. -/
def parseSuccessBody (s : Settings) (header : M3UHeaderStrings) (providers : List Provider)
    (line : Str) (channel : Channel) (mediaEntry : MediaEntry) (groupIdList : List Int)
    (epgTimeShift catchupCorrectionSecs : Int) (xeevCatchup : Bool)
    (colonIndex commaIndex : Nat) : ParseResult :=
      let channelName := unknownToUTF8 (trimWS (line.drop (commaIndex + 1)))
      let c := { channel with channelName := channelName }
      let infoLine := substrLen line (colonIndex + 1) (commaIndex - colonIndex - 1)
      let strTvgId0 := ReadMarkerValue infoLine TVG_INFO_ID_MARKER
      let strTvgName := unknownToUTF8 (ReadMarkerValue infoLine TVG_INFO_NAME_MARKER)
      let strTvgLogo := ReadMarkerValue infoLine TVG_INFO_LOGO_MARKER
      let strChnlNo0 := ReadMarkerValue infoLine TVG_INFO_CHNO_MARKER
      let strRadio := ReadMarkerValue infoLine RADIO_MARKER
      let strTvgShift := ReadMarkerValue infoLine TVG_INFO_SHIFT_MARKER
      let strCatchupDays := ReadMarkerValue infoLine CATCHUP_DAYS
      let strTvgRec := ReadMarkerValue infoLine TVG_INFO_REC
      let strCatchupSource := unknownToUTF8 (ReadMarkerValue infoLine CATCHUP_SOURCE)
      let strCatchupSiptv := ReadMarkerValue infoLine CATCHUP_SIPTV
      let strCatchupCorrection := ReadMarkerValue infoLine CATCHUP_CORRECTION
      let strProviderName0 := ReadMarkerValue infoLine PROVIDER
      let strProviderType := ReadMarkerValue infoLine PROVIDER_TYPE
      let strProviderIconPath := ReadMarkerValue infoLine PROVIDER_LOGO
      let strProviderCountries := ReadMarkerValue infoLine PROVIDER_COUNTRIES
      let strProviderLanguages := ReadMarkerValue infoLine PROVIDER_LANGUAGES
      let strMediaDir := ReadMarkerValue infoLine MEDIA_DIR
      let strMediaSize := ReadMarkerValue infoLine MEDIA_SIZE
      let strCatchup := effectiveCatchup header infoLine
      let strTvgId1 := if strTvgId0 = [] then ReadMarkerValue infoLine TVG_INFO_ID_MARKER_UC
        else strTvgId0
      let strTvgId := if strTvgId1 = [] then ((toString (atoiL infoLine)).data) else strTvgId1
      let strChnlNo := if strChnlNo0 = [] then ReadMarkerValue infoLine CHANNEL_NUMBER_MARKER
        else strChnlNo0
      let c := applyChannelNumber s strChnlNo c
      let isRadio := eqNoCase strRadio ("true".data)
      let c := { c with tvgId := strTvgId, tvgName := strTvgName,
                        catchupSource := strCatchupSource }
      -- Source lines 333-335: this header fallback updates only the local
      -- variable, after the channel's catchupSource field was already set;
      -- the local is not read again afterwards.
      let _strCatchupSource :=
        if strCatchupSource = [] ∧ header.m_catchupSource ≠ [] then header.m_catchupSource
        else strCatchupSource
      let c := { c with tvgShift := ((atofL strTvgShift).mulInt 3600).trunc }
      let c := { c with radio := isRadio }
      let c := if s.logoPathTypeLocal ∧ s.useLocalLogosOnlyIgnoreM3U
        then c.setIconPathFromTvgLogo [] channelName
        else c.setIconPathFromTvgLogo strTvgLogo channelName
      let c := if strTvgShift = [] then { c with tvgShift := epgTimeShift } else c
      let c := { c with catchupCorrectionSecs := ((atofL strCatchupCorrection).mulInt 3600).trunc }
      let c := if strCatchupCorrection = [] then
          { c with catchupCorrectionSecs := catchupCorrectionSecs }
        else c
      let c := applyCatchupModeFlags strCatchup c
      let c := applyXeevCatchup xeevCatchup channelName c
      let days := siptvTimeshiftDays strCatchupSiptv strTvgRec
      let c := applyCatchupDays s header strCatchupDays days c
      let c := applySiptvTimeshift days c
      let strProviderName := if strProviderName0 = [] ∧ s.defaultProviderName ≠ []
        then s.defaultProviderName else strProviderName0
      let final := registerProvider providers strProviderName strProviderType
        strProviderIconPath strProviderCountries strProviderLanguages c
      let m := if strMediaDir ≠ [] then { mediaEntry with directory := strMediaDir }
        else mediaEntry
      let m := if strMediaSize ≠ [] then { m with sizeInBytes := strtollL strMediaSize } else m
      { groupTitle := ReadMarkerValue infoLine GROUP_NAME_MARKER,
        channel := final.2, mediaEntry := m, groupIdList := groupIdList,
        providers := final.1 }

/-- Embedding of `PlaylistLoader::ParseIntoChannel` (source lines 236-459).
The function is total: a line without a colon, without a comma, or whose
chosen comma does not come after the first colon returns the empty group
title and leaves every by-reference argument unchanged (source lines
257-258, 456-458); no exception can escape. -/
def ParseIntoChannel (s : Settings) (header : M3UHeaderStrings) (providers : List Provider)
    (line : Str) (channel : Channel) (mediaEntry : MediaEntry) (groupIdList : List Int)
    (epgTimeShift catchupCorrectionSecs : Int) (xeevCatchup : Bool) : ParseResult :=
  match findChar ':' line, chosenCommaIndex line with
  | some colonIndex, some commaIndex =>
    if commaIndex > colonIndex then
      parseSuccessBody s header providers line channel mediaEntry groupIdList epgTimeShift
        catchupCorrectionSecs xeevCatchup colonIndex commaIndex
    else
      { groupTitle := [], channel := channel, mediaEntry := mediaEntry,
        groupIdList := groupIdList, providers := providers }
  | _, _ =>
    { groupTitle := [], channel := channel, mediaEntry := mediaEntry,
      groupIdList := groupIdList, providers := providers }

/-!
**Property lines (`PlaylistLoader::ParseSinglePropertyIntoChannel`,**
source lines 484-513)
-/

/-- Embedding of `PlaylistLoader::ParseSinglePropertyIntoChannel`: read the
marker value, split it at the first `=`, lower the key, filter the allowed
keys per marker kind, rewrite the inputstream keys for `#KODIPROP:`, and
add the property. -/
def ParseSinglePropertyIntoChannel (line : Str) (channel : Channel) (markerName : Str) :
    Channel :=
  let value := ReadMarkerValue line markerName
  match findChar '=' value with
  | none => channel
  | some pos =>
    let prop0 := toLowerL (substrLen value 0 pos)
    let propValue := value.drop (pos + 1)
    if markerName = EXTVLCOPT_DASH_MARKER then
      if prop0 = ("http-reconnect".data) then channel.addProperty prop0 propValue else channel
    else if markerName = EXTVLCOPT_MARKER then
      if prop0 = ("http-user-agent".data) ∨ prop0 = ("http-referrer".data) ∨
         prop0 = ("program".data)
      then channel.addProperty prop0 propValue else channel
    else
      let prop := if markerName = KODIPROP_MARKER ∧
          (prop0 = ("inputstreamaddon".data) ∨ prop0 = ("inputstreamclass".data))
        then PVR_STREAM_PROPERTY_INPUTSTREAM else prop0
      channel.addProperty prop propValue

/-!
**Store models**

The channel, group, provider and media stores live outside `src/`; their
operations are modelled from the spec.
-/

/-- Modelled from the spec: `ChannelGroups::CheckChannelGroupAllowed`
consults the configuration — a custom allow-list when present, otherwise
the tv/radio group enablement. -/
def CheckChannelGroupAllowed (s : Settings) (g : ChannelGroup) : Bool :=
  match (if g.radio then s.allowedGroupsRadio else s.allowedGroupsTv) with
  | some allowed => allowed.contains g.groupName
  | none => if g.radio then s.radioGroupsEnabled else s.tvGroupsEnabled

/-- Modelled from the spec: `ChannelGroups::AddChannelGroup` deduplicates
on `(groupName, isRadio)` — first occurrence wins — and assigns unique ids
monotonically from 1; the existing or new unique id is returned. -/
def AddChannelGroup (gs : List ChannelGroup) (g : ChannelGroup) : List ChannelGroup × Int :=
  match gs.find? (fun x => x.groupName == g.groupName && x.radio == g.radio) with
  | some x => (gs, x.uniqueId)
  | none =>
    let id : Int := (gs.length : Int) + 1
    (gs ++ [{ g with uniqueId := id }], id)

/-- Embedding of `PlaylistLoader::ParseAndAddChannelGroups` (source lines
461-482): split the group-name list on `;`, convert each name to UTF-8,
and register every allowed group, accumulating its id. -/
def ParseAndAddChannelGroups (s : Settings) (gs : List ChannelGroup)
    (groupNamesListString : Str) (groupIdList : List Int) (isRadio : Bool) :
    List ChannelGroup × List Int :=
  (getParts ';' groupNamesListString).foldl
    (fun acc groupName =>
      let groupName := unknownToUTF8 groupName
      let g : ChannelGroup := { groupName := groupName, radio := isRadio }
      if CheckChannelGroupAllowed s g then
        let r := AddChannelGroup acc.1 g
        (r.1, acc.2 ++ [r.2])
      else acc)
    (gs, groupIdList)

/-- Modelled from the spec: `Channels::GetCurrentChannelNumber` — the
ordinal channel number reflecting playlist order. -/
def GetCurrentChannelNumber (channels : List Channel) : Int := (channels.length : Int) + 1

/-- Modelled from the spec: `Channels::AddChannel` — rejected when the
configuration requires group membership and the channel had no groups;
otherwise the channel is appended (with an ordinal unique id in this
model) and registered in its groups' membership lists. -/
def AddChannel (s : Settings) (channels : List Channel) (groups : List ChannelGroup)
    (ch : Channel) (groupIds : List Int) (hadGroups : Bool) :
    List Channel × List ChannelGroup × Bool :=
  if ¬hadGroups ∧ ¬s.allowGroupLessChannels then (channels, groups, false)
  else
    let ch := { ch with uniqueId := (channels.length : Int) + 1 }
    let groups := groups.map (fun g =>
      if groupIds.contains g.uniqueId then { g with memberIds := g.memberIds ++ [ch.uniqueId] }
      else g)
    (channels ++ [ch], groups, true)

/-- Modelled from the spec: `Media::AddMediaEntry` — rejected when an entry
with the same generated unique id exists; the generated id is modelled by
the (name, stream URL) pair. -/
def AddMediaEntry (ms : List MediaEntry) (e : MediaEntry) : List MediaEntry × Bool :=
  if ms.any (fun x => x.channelName == e.channelName && x.streamURL == e.streamURL) then
    (ms, false)
  else (ms ++ [e], true)

/-!
**Playlist loader (`PlaylistLoader::LoadPlayList`, source lines 41-234)**
-/

/-- The state the loader's line loop maintains (source lines 64-76,
together with the member stores and the header-string member). -/
structure LoaderState where
  isFirstLine : Bool := true
  isRealTime : Bool := true
  isMediaEntry : Bool := false
  channelHadGroups : Bool := false
  xeevCatchup : Bool := false
  epgTimeShift : Int := 0
  catchupCorrectionSecs : Int := 0
  currentGroupIds : List Int := []
  tmpChannel : Channel := {}
  tmpMediaEntry : MediaEntry := {}
  header : M3UHeaderStrings := {}
  channels : List Channel := []
  groups : List ChannelGroup := []
  providers : List Provider := []
  media : List MediaEntry := []
  tvgUrl : Option Str := none

/-- The per-line trimming of the loader (source lines 80-81). -/
def trimmedLine (rawLine : Str) : Str :=
  trimLeftChars ([' ', '\t']) (trimRightChars ([' ', '\t', '\r', '\n']) rawLine)

/-- Source lines 92-93: strip a UTF-8 byte-order mark.  The model works on
decoded characters, so the three-byte mark is the single character
U+FEFF. -/
def stripBOM (l : Str) : Str :=
  if l.take 1 = ['\uFEFF'] then l.drop 1 else l

/-- Source lines 120-126: the EPG url read from the header — `url-tvg`,
else `x-tvg-url`. -/
def headerTvgUrl (line : Str) : Str :=
  let t := ReadMarkerValue line TVG_URL_MARKER
  if t = [] then ReadMarkerValue line TVG_URL_OTHER_MARKER else t

/-- Source lines 95-129: read the `#EXTM3U` header defaults — EPG time
shift, catchup correction, catchup token (with the xeev check before the
`catchup-type` fallback), catchup days and source, and the EPG url
(`url-tvg`, else `x-tvg-url`), which is stored into the settings. -/
def processHeader (st : LoaderState) (line : Str) : LoaderState :=
  let epgTimeShift := ((atofL (ReadMarkerValue line TVG_INFO_SHIFT_MARKER)).mulInt 3600).trunc
  let strCatchupCorrection := ReadMarkerValue line CATCHUP_CORRECTION
  let catchupCorrectionSecs :=
    if strCatchupCorrection ≠ [] then ((atofL strCatchupCorrection).mulInt 3600).trunc
    else st.catchupCorrectionSecs
  let mCatchup0 := ReadMarkerValue line CATCHUP
  let xeevCatchup := if mCatchup0 = ("xc".data) then true else st.xeevCatchup
  let mCatchup := if mCatchup0 = [] then ReadMarkerValue line CATCHUP_TYPE else mCatchup0
  let mDays := ReadMarkerValue line CATCHUP_DAYS
  let mSource := ReadMarkerValue line CATCHUP_SOURCE
  let tvgUrl := headerTvgUrl line
  { st with epgTimeShift := epgTimeShift, catchupCorrectionSecs := catchupCorrectionSecs,
            xeevCatchup := xeevCatchup,
            header := { m_catchup := mCatchup, m_catchupDays := mDays,
                        m_catchupSource := mSource },
            tvgUrl := some tvgUrl }

/-- Source lines 137-211: dispatch one (non-empty, non-header) line by its
prefix.  `cfg` models `Channel::ConfigureCatchupMode`, whose body is
outside `src/`. -/
def dispatchLine (s : Settings) (cfg : Channel → Channel) (st : LoaderState) (line : Str) :
    LoaderState :=
  if startsWithL M3U_INFO_MARKER line then
    let tmp := { st.tmpChannel with channelNumber := GetCurrentChannelNumber st.channels }
    let isMediaEntry := (findSub MEDIA line).isSome || (findSub MEDIA_DIR line).isSome ||
      (findSub MEDIA_SIZE line).isSome
    let r := ParseIntoChannel s st.header st.providers line tmp st.tmpMediaEntry []
      st.epgTimeShift st.catchupCorrectionSecs st.xeevCatchup
    let st := { st with tmpChannel := r.channel, tmpMediaEntry := r.mediaEntry,
                        providers := r.providers, currentGroupIds := r.groupIdList,
                        isMediaEntry := isMediaEntry }
    if r.groupTitle ≠ [] then
      let gr := ParseAndAddChannelGroups s st.groups r.groupTitle st.currentGroupIds
        r.channel.radio
      { st with groups := gr.1, currentGroupIds := gr.2, channelHadGroups := true }
    else st
  else if startsWithL KODIPROP_MARKER line then
    { st with tmpChannel := ParseSinglePropertyIntoChannel line st.tmpChannel KODIPROP_MARKER }
  else if startsWithL EXTVLCOPT_MARKER line then
    { st with tmpChannel := ParseSinglePropertyIntoChannel line st.tmpChannel EXTVLCOPT_MARKER }
  else if startsWithL EXTVLCOPT_DASH_MARKER line then
    { st with tmpChannel :=
        ParseSinglePropertyIntoChannel line st.tmpChannel EXTVLCOPT_DASH_MARKER }
  else if startsWithL M3U_GROUP_MARKER line then
    let groupNamesListString := ReadMarkerValue line M3U_GROUP_MARKER
    if groupNamesListString ≠ [] then
      let gr := ParseAndAddChannelGroups s st.groups groupNamesListString st.currentGroupIds
        st.tmpChannel.radio
      { st with groups := gr.1, currentGroupIds := gr.2, channelHadGroups := true }
    else st
  else if startsWithL PLAYLIST_TYPE_MARKER line then
    if ReadMarkerValue line PLAYLIST_TYPE_MARKER = ("VOD".data) then
      { st with isRealTime := false }
    else st
  else if line.head? ≠ some '#' then
    let st2 :=
      if (st.isRealTime || !s.mediaEnabled || !s.showVodAsRecordings) && !st.isMediaEntry then
        let tmp := st.tmpChannel.addProperty PVR_STREAM_PROPERTY_ISREALTIMESTREAM ("true".data)
        let channel := cfg { tmp with streamURL := line }
        let r := AddChannel s st.channels st.groups channel st.currentGroupIds
          st.channelHadGroups
        { st with tmpChannel := tmp, channels := r.1, groups := r.2.1 }
      else
        let entry := st.tmpMediaEntry.updateFrom st.tmpChannel
        let entry := { entry with streamURL := line }
        let r := AddMediaEntry st.media entry
        { st with media := r.1 }
    { st2 with tmpChannel := {}, tmpMediaEntry := {}, isRealTime := true,
               isMediaEntry := false, channelHadGroups := false }
  else st

/-- One iteration of the loader's line loop (source lines 78-212): trim,
skip empty lines, handle the first line (byte-order mark and `#EXTM3U`
header), otherwise dispatch. -/
def processLine (s : Settings) (cfg : Channel → Channel) (st : LoaderState) (rawLine : Str) :
    LoaderState :=
  let line := trimmedLine rawLine
  if line = [] then st
  else if st.isFirstLine then
    let st := { st with isFirstLine := false }
    let line := stripBOM line
    if startsWithL M3U_START_MARKER line then processHeader st line
    else dispatchLine s cfg st line
  else dispatchLine s cfg st line

/-- The observable outcome of `LoadPlayList`: the return value, the four
stores, and the tvg url written to the settings (`none` when
`SetTvgUrl` was never called). -/
structure LoadOutcome where
  ok : Bool
  channels : List Channel
  groups : List ChannelGroup
  providers : List Provider
  media : List MediaEntry
  tvgUrl : Option Str

/-- Embedding of `PlaylistLoader::LoadPlayList` (source lines 41-234) on
stores that were cleared before the load (as `ReloadPlayList` does).
`fetched` models the result of `GetCachedFileContents` (`none` on a failed
fetch); `cfg` models `Channel::ConfigureCatchupMode` (outside `src/`).
An empty parse result is logged but the function still returns `true`
(source lines 221-233). -/
def LoadPlayList (s : Settings) (fetched : Option Str) (cfg : Channel → Channel) :
    LoadOutcome :=
  if s.m3uLocation = [] then
    { ok := false, channels := [], groups := [], providers := [], media := [], tvgUrl := none }
  else
    match fetched with
    | none =>
      { ok := false, channels := [], groups := [], providers := [], media := [],
        tvgUrl := none }
    | some content =>
      let st0 : LoaderState := { catchupCorrectionSecs := s.catchupCorrectionSecs }
      let st := (getLines content).foldl (processLine s cfg) st0
      { ok := true, channels := st.channels, groups := st.groups,
        providers := st.providers, media := st.media, tvgUrl := st.tvgUrl }

/-!
**EPG tag playability (`PVRIptvData::IsEPGTagPlayable`, source lines**
333-364)
-/

/-- The PVR error codes the embedded functions return. -/
inductive PVRError
  | NO_ERROR
  | NOT_IMPLEMENTED
  | FAILED
deriving DecidableEq

/-- The fields of a `kodi::addon::PVREPGTag` the function reads. -/
structure EpgTag where
  uniqueChannelId : Int := 0
  startTime : Int := 0
  endTime : Int := 0
deriving DecidableEq

/-- The fields of an EPG entry the function reads. -/
structure EpgEntry where
  catchupId : Str := []
deriving DecidableEq

/-- Modelled from the spec: `PVRIptvData::GetChannel` looks up a channel by
its unique id. -/
def GetChannel (channels : List Channel) (id : Int) : Option Channel :=
  channels.find? (fun c => c.uniqueId == id)

/-- Modelled from the spec: `Channel::IsCatchupSupported` — the day-window
rule makes a tag playable only when `channel.hasCatchup`. -/
def Channel.isCatchupSupported (c : Channel) : Bool := c.hasCatchup

/-- Modelled from the spec: `Channel::IgnoreCatchupDays` — the
`IGNORE_CATCHUP_DAYS` sentinel means "no day constraint". -/
def Channel.ignoreCatchupDays (c : Channel) : Bool := c.catchupDays == IGNORE_CATCHUP_DAYS

/-- Modelled from the spec: `Channel::GetCatchupDaysInSeconds` is
`catchupDays * 86400`. -/
def Channel.getCatchupDaysInSeconds (c : Channel) : Int := c.catchupDays * 86400

/-- Embedding of `PVRIptvData::IsEPGTagPlayable`.  The second component is
the value written to `bIsPlayable` (`none` when the function returns
before writing it).  `epgLookup` models
`CatchupController::GetEPGEntry` (outside `src/`); a default-constructed
channel stands in when the lookup fails, as in the source. -/
def IsEPGTagPlayable (s : Settings) (channels : List Channel)
    (epgLookup : Channel → Int → Option EpgEntry) (tag : EpgTag) (now : Int) :
    PVRError × Option Bool :=
  if ¬s.catchupEnabled then (PVRError.NOT_IMPLEMENTED, none)
  else
    let found := GetChannel channels tag.uniqueChannelId
    let channel := found.getD {}
    let b := found.isSome && s.catchupEnabled && channel.isCatchupSupported
    let b :=
      if channel.ignoreCatchupDays then
        let hasCatchupId :=
          match epgLookup channel tag.startTime with
          | some e => e.catchupId != ([] : Str)
          | none => false
        b && hasCatchupId
      else
        b && decide (tag.startTime < now) &&
          decide (tag.startTime ≥ now - channel.getCatchupDaysInSeconds) &&
          (!s.catchupOnlyOnFinishedProgrammes || decide (tag.endTime < now))
    (PVRError.NO_ERROR, some b)

/-!
**Helper lemmas about the string primitives**
-/

theorem take_findChar (c : Char) (l : Str) :
    l.take ((findChar c l).getD l.length) = l.takeWhile (fun a => a != c) := by
  induction l with
  | nil => rfl
  | cons a tl ih =>
    by_cases hac : a = c
    · subst hac
      simp [findChar, List.takeWhile_cons]
    · rcases hfc : findChar c tl with _ | e
      · rw [hfc] at ih
        simp only [findChar, if_neg hac, hfc, Option.map_none', Option.getD_none,
          List.length_cons, List.take_succ_cons, List.takeWhile_cons]
        simp only [Option.getD_none] at ih
        simp [bne_iff_ne, hac, ih]
      · rw [hfc] at ih
        simp only [findChar, if_neg hac, hfc, Option.map_some', Option.getD_some,
          List.take_succ_cons, List.takeWhile_cons]
        simp only [Option.getD_some] at ih
        simp [bne_iff_ne, hac, ih]

theorem substr_upto_terminator (c : Char) (line : Str) (ms : Nat) :
    substrLen line ms (((findCharFrom c line ms).getD line.length) - ms)
      = (line.drop ms).takeWhile (fun a => a != c) := by
  unfold findCharFrom substrLen
  rcases h : findChar c (line.drop ms) with _ | e
  · have hmain := take_findChar c (line.drop ms)
    rw [h] at hmain
    simp only [Option.getD_none] at hmain
    simp only [Option.map_none', Option.getD_none]
    rw [← hmain]
    congr 1
    simp [List.length_drop]
  · have hmain := take_findChar c (line.drop ms)
    rw [h] at hmain
    simp only [Option.getD_some] at hmain
    simp only [Option.map_some', Option.getD_some, Nat.add_sub_cancel]
    exact hmain

theorem mem_of_getLast?_eq (l : Str) (x : Char) (h : l.getLast? = some x) : x ∈ l := by
  have hx : x ∈ l.getLast? := by simp [h]
  rcases List.mem_getLast?_eq_getLast hx with ⟨hne, hx2⟩
  rw [hx2]
  exact List.getLast_mem hne

/-!
**C6: the marker reader meets its contract**
-/

/-- C6: for every line and marker name, `ReadMarkerValue` locates the first
occurrence of the marker, advances past it, and returns the substring up to
the next terminator — a double quote when the character after the marker is
a double quote (running to end of line when the closing quote is missing),
a space otherwise — and returns the empty string when the marker is absent
or nothing follows it. -/
theorem readMarkerValue_meets_contract (line markerName : Str) :
    ReadMarkerValue line markerName = readMarkerValueSpec line markerName := by
  unfold ReadMarkerValue readMarkerValueSpec
  rcases hf : findSub markerName line with _ | i
  · rfl
  · dsimp only
    rcases hd : line.drop (i + markerName.length) with _ | ⟨a, tl⟩
    · have hle : line.length ≤ i + markerName.length := List.drop_eq_nil_iff.mp hd
      rw [if_neg (by omega)]
    · have hlen : (line.drop (i + markerName.length)).length
          = line.length - (i + markerName.length) := List.length_drop _ _
      rw [hd] at hlen
      have hlt : i + markerName.length < line.length := by
        simp only [List.length_cons] at hlen
        omega
      rw [if_pos hlt]
      have hget : line.get? (i + markerName.length) = some a := by
        rw [List.get?_eq_getElem?]
        have h0 := List.getElem?_drop line (i + markerName.length) 0
        rw [hd] at h0
        simpa using h0.symm
      by_cases ha : a = '"'
      · subst ha
        rw [if_pos hget]
        have hdrop1 : line.drop (i + markerName.length + 1) = tl := by
          have hdd := List.drop_drop 1 (i + markerName.length) line
          rw [hd] at hdd
          simpa using hdd.symm
        rw [substr_upto_terminator, hdrop1]
        simp
      · rw [if_neg (by rw [hget]; simp [ha])]
        rw [substr_upto_terminator, hd]
        simp [ha]

/-!
**Frame lemmas: which channel fields each parser stage leaves alone**
-/

@[simp] theorem applyChannelNumber_channelName (s : Settings) (n : Str) (c : Channel) :
    (applyChannelNumber s n c).channelName = c.channelName := by
  unfold applyChannelNumber
  split
  · split <;> rfl
  · rfl

@[simp] theorem applyChannelNumber_catchupTSStream (s : Settings) (n : Str) (c : Channel) :
    (applyChannelNumber s n c).catchupTSStream = c.catchupTSStream := by
  unfold applyChannelNumber
  split
  · split <;> rfl
  · rfl

@[simp] theorem setIconPathFromTvgLogo_channelName (c : Channel) (a b : Str) :
    (c.setIconPathFromTvgLogo a b).channelName = c.channelName := rfl

@[simp] theorem setIconPathFromTvgLogo_tvgShift (c : Channel) (a b : Str) :
    (c.setIconPathFromTvgLogo a b).tvgShift = c.tvgShift := rfl

@[simp] theorem setIconPathFromTvgLogo_catchupTSStream (c : Channel) (a b : Str) :
    (c.setIconPathFromTvgLogo a b).catchupTSStream = c.catchupTSStream := rfl

@[simp] theorem applyCatchupModeFlags_channelName (tok : Str) (c : Channel) :
    (applyCatchupModeFlags tok c).channelName = c.channelName := by
  simp only [applyCatchupModeFlags, apply_ite (Channel.channelName)]
  simp

@[simp] theorem applyCatchupModeFlags_tvgShift (tok : Str) (c : Channel) :
    (applyCatchupModeFlags tok c).tvgShift = c.tvgShift := by
  simp only [applyCatchupModeFlags, apply_ite (Channel.tvgShift)]
  simp

@[simp] theorem applyXeevCatchup_channelName (x : Bool) (n : Str) (c : Channel) :
    (applyXeevCatchup x n c).channelName = c.channelName := by
  unfold applyXeevCatchup
  split <;> rfl

@[simp] theorem applyXeevCatchup_tvgShift (x : Bool) (n : Str) (c : Channel) :
    (applyXeevCatchup x n c).tvgShift = c.tvgShift := by
  unfold applyXeevCatchup
  split <;> rfl

@[simp] theorem applyXeevCatchup_catchupTSStream (x : Bool) (n : Str) (c : Channel) :
    (applyXeevCatchup x n c).catchupTSStream = c.catchupTSStream := by
  unfold applyXeevCatchup
  split <;> rfl

theorem applyXeevCatchup_of_hasCatchup (x : Bool) (n : Str) (c : Channel)
    (h : c.hasCatchup = true) : applyXeevCatchup x n c = c := by
  unfold applyXeevCatchup
  rw [if_neg]
  simp [h]

@[simp] theorem applyCatchupDays_channelName (s : Settings) (hd : M3UHeaderStrings)
    (d : Str) (n : Int) (c : Channel) :
    (applyCatchupDays s hd d n c).channelName = c.channelName := by
  unfold applyCatchupDays
  split <;> try rfl
  split <;> try rfl
  split <;> try rfl
  split <;> rfl

@[simp] theorem applyCatchupDays_tvgShift (s : Settings) (hd : M3UHeaderStrings)
    (d : Str) (n : Int) (c : Channel) :
    (applyCatchupDays s hd d n c).tvgShift = c.tvgShift := by
  unfold applyCatchupDays
  split <;> try rfl
  split <;> try rfl
  split <;> try rfl
  split <;> rfl

@[simp] theorem applyCatchupDays_hasCatchup (s : Settings) (hd : M3UHeaderStrings)
    (d : Str) (n : Int) (c : Channel) :
    (applyCatchupDays s hd d n c).hasCatchup = c.hasCatchup := by
  unfold applyCatchupDays
  split <;> try rfl
  split <;> try rfl
  split <;> try rfl
  split <;> rfl

@[simp] theorem applyCatchupDays_catchupMode (s : Settings) (hd : M3UHeaderStrings)
    (d : Str) (n : Int) (c : Channel) :
    (applyCatchupDays s hd d n c).catchupMode = c.catchupMode := by
  unfold applyCatchupDays
  split <;> try rfl
  split <;> try rfl
  split <;> try rfl
  split <;> rfl

@[simp] theorem applyCatchupDays_catchupTSStream (s : Settings) (hd : M3UHeaderStrings)
    (d : Str) (n : Int) (c : Channel) :
    (applyCatchupDays s hd d n c).catchupTSStream = c.catchupTSStream := by
  unfold applyCatchupDays
  split <;> try rfl
  split <;> try rfl
  split <;> try rfl
  split <;> rfl

@[simp] theorem applySiptvTimeshift_channelName (n : Int) (c : Channel) :
    (applySiptvTimeshift n c).channelName = c.channelName := by
  unfold applySiptvTimeshift
  split <;> rfl

@[simp] theorem applySiptvTimeshift_tvgShift (n : Int) (c : Channel) :
    (applySiptvTimeshift n c).tvgShift = c.tvgShift := by
  unfold applySiptvTimeshift
  split <;> rfl

@[simp] theorem applySiptvTimeshift_catchupTSStream (n : Int) (c : Channel) :
    (applySiptvTimeshift n c).catchupTSStream = c.catchupTSStream := by
  unfold applySiptvTimeshift
  split <;> rfl

theorem applySiptvTimeshift_of_hasCatchup (n : Int) (c : Channel)
    (h : c.hasCatchup = true) : applySiptvTimeshift n c = c := by
  unfold applySiptvTimeshift
  rw [if_neg]
  simp [h]

@[simp] theorem registerProvider_channelName (ps : List Provider) (a b d e f : Str)
    (c : Channel) :
    (registerProvider ps a b d e f c).2.channelName = c.channelName := by
  unfold registerProvider
  dsimp only
  split
  · rfl
  · split <;> rfl

@[simp] theorem registerProvider_tvgShift (ps : List Provider) (a b d e f : Str)
    (c : Channel) :
    (registerProvider ps a b d e f c).2.tvgShift = c.tvgShift := by
  unfold registerProvider
  dsimp only
  split
  · rfl
  · split <;> rfl

@[simp] theorem registerProvider_hasCatchup (ps : List Provider) (a b d e f : Str)
    (c : Channel) :
    (registerProvider ps a b d e f c).2.hasCatchup = c.hasCatchup := by
  unfold registerProvider
  dsimp only
  split
  · rfl
  · split <;> rfl

@[simp] theorem registerProvider_catchupMode (ps : List Provider) (a b d e f : Str)
    (c : Channel) :
    (registerProvider ps a b d e f c).2.catchupMode = c.catchupMode := by
  unfold registerProvider
  dsimp only
  split
  · rfl
  · split <;> rfl

@[simp] theorem registerProvider_catchupTSStream (ps : List Provider) (a b d e f : Str)
    (c : Channel) :
    (registerProvider ps a b d e f c).2.catchupTSStream = c.catchupTSStream := by
  unfold registerProvider
  dsimp only
  split
  · rfl
  · split <;> rfl

/-!
**Value lemmas for the catchup stages**
-/

/-- The spec's catchup-token table, written from its words: the recognised
tokens (case-insensitive) and the mode each maps to; `none` for an
unrecognised token. -/
def specCatchupModeMap (tok : Str) : Option CatchupMode :=
  if eqNoCase tok ("default".data) then some CatchupMode.DEFAULT
  else if eqNoCase tok ("append".data) then some CatchupMode.APPEND
  else if eqNoCase tok ("shift".data) then some CatchupMode.SHIFT
  else if eqNoCase tok ("flussonic".data) then some CatchupMode.FLUSSONIC
  else if eqNoCase tok ("flussonic-hls".data) then some CatchupMode.FLUSSONIC
  else if eqNoCase tok ("flussonic-ts".data) then some CatchupMode.FLUSSONIC
  else if eqNoCase tok ("fs".data) then some CatchupMode.FLUSSONIC
  else if eqNoCase tok ("xc".data) then some CatchupMode.XTREAM_CODES
  else if eqNoCase tok ("vod".data) then some CatchupMode.VOD
  else none

@[simp] theorem applyCatchupModeFlags_hasCatchup (tok : Str) (c : Channel) :
    (applyCatchupModeFlags tok c).hasCatchup
      = (c.hasCatchup || (specCatchupModeMap tok).isSome) := by
  by_cases h1 : eqNoCase tok ("default".data) = true
  · simp [applyCatchupModeFlags, specCatchupModeMap, apply_ite Channel.hasCatchup, h1]
  by_cases h2 : eqNoCase tok ("append".data) = true
  · simp [applyCatchupModeFlags, specCatchupModeMap, apply_ite Channel.hasCatchup, h1, h2]
  by_cases h3 : eqNoCase tok ("shift".data) = true
  · simp [applyCatchupModeFlags, specCatchupModeMap, apply_ite Channel.hasCatchup, h1, h2, h3]
  by_cases h4 : eqNoCase tok ("flussonic".data) = true
  · simp [applyCatchupModeFlags, specCatchupModeMap, apply_ite Channel.hasCatchup,
      h1, h2, h3, h4]
  by_cases h5 : eqNoCase tok ("flussonic-hls".data) = true
  · simp [applyCatchupModeFlags, specCatchupModeMap, apply_ite Channel.hasCatchup,
      h1, h2, h3, h4, h5]
  by_cases h6 : eqNoCase tok ("flussonic-ts".data) = true
  · simp [applyCatchupModeFlags, specCatchupModeMap, apply_ite Channel.hasCatchup,
      h1, h2, h3, h4, h5, h6]
  by_cases h7 : eqNoCase tok ("fs".data) = true
  · simp [applyCatchupModeFlags, specCatchupModeMap, apply_ite Channel.hasCatchup,
      h1, h2, h3, h4, h5, h6, h7]
  by_cases h8 : eqNoCase tok ("xc".data) = true
  · simp [applyCatchupModeFlags, specCatchupModeMap, apply_ite Channel.hasCatchup,
      h1, h2, h3, h4, h5, h6, h7, h8]
  by_cases h9 : eqNoCase tok ("vod".data) = true
  · simp [applyCatchupModeFlags, specCatchupModeMap, apply_ite Channel.hasCatchup,
      h1, h2, h3, h4, h5, h6, h7, h8, h9]
  · simp [applyCatchupModeFlags, specCatchupModeMap, apply_ite Channel.hasCatchup,
      h1, h2, h3, h4, h5, h6, h7, h8, h9]

@[simp] theorem applyCatchupModeFlags_catchupMode (tok : Str) (c : Channel) :
    (applyCatchupModeFlags tok c).catchupMode
      = (specCatchupModeMap tok).getD c.catchupMode := by
  by_cases h1 : eqNoCase tok ("default".data) = true
  · simp [applyCatchupModeFlags, specCatchupModeMap, apply_ite Channel.catchupMode, h1]
  by_cases h2 : eqNoCase tok ("append".data) = true
  · simp [applyCatchupModeFlags, specCatchupModeMap, apply_ite Channel.catchupMode, h1, h2]
  by_cases h3 : eqNoCase tok ("shift".data) = true
  · simp [applyCatchupModeFlags, specCatchupModeMap, apply_ite Channel.catchupMode, h1, h2, h3]
  by_cases h4 : eqNoCase tok ("flussonic".data) = true
  · simp [applyCatchupModeFlags, specCatchupModeMap, apply_ite Channel.catchupMode,
      h1, h2, h3, h4]
  by_cases h5 : eqNoCase tok ("flussonic-hls".data) = true
  · simp [applyCatchupModeFlags, specCatchupModeMap, apply_ite Channel.catchupMode,
      h1, h2, h3, h4, h5]
  by_cases h6 : eqNoCase tok ("flussonic-ts".data) = true
  · simp [applyCatchupModeFlags, specCatchupModeMap, apply_ite Channel.catchupMode,
      h1, h2, h3, h4, h5, h6]
  by_cases h7 : eqNoCase tok ("fs".data) = true
  · simp [applyCatchupModeFlags, specCatchupModeMap, apply_ite Channel.catchupMode,
      h1, h2, h3, h4, h5, h6, h7]
  by_cases h8 : eqNoCase tok ("xc".data) = true
  · simp [applyCatchupModeFlags, specCatchupModeMap, apply_ite Channel.catchupMode,
      h1, h2, h3, h4, h5, h6, h7, h8]
  by_cases h9 : eqNoCase tok ("vod".data) = true
  · simp [applyCatchupModeFlags, specCatchupModeMap, apply_ite Channel.catchupMode,
      h1, h2, h3, h4, h5, h6, h7, h8, h9]
  · simp [applyCatchupModeFlags, specCatchupModeMap, apply_ite Channel.catchupMode,
      h1, h2, h3, h4, h5, h6, h7, h8, h9]

@[simp] theorem applyCatchupModeFlags_catchupTSStream (tok : Str) (c : Channel) :
    (applyCatchupModeFlags tok c).catchupTSStream
      = (c.catchupTSStream ||
          (eqNoCase tok ("flussonic-ts".data) || eqNoCase tok ("fs".data))) := by
  by_cases h : (eqNoCase tok ("flussonic-ts".data) || eqNoCase tok ("fs".data)) = true
  · simp [applyCatchupModeFlags, apply_ite Channel.catchupTSStream, h]
  · simp only [Bool.not_eq_true] at h
    simp [applyCatchupModeFlags, apply_ite Channel.catchupTSStream, h]

@[simp] theorem applyXeevCatchup_hasCatchup (x : Bool) (n : Str) (c : Channel) :
    (applyXeevCatchup x n c).hasCatchup
      = (c.hasCatchup ||
          (x && (startsWithL ("* ".data) n || startsWithL ("[+] ".data) n))) := by
  unfold applyXeevCatchup
  by_cases hc : c.hasCatchup = true
  · rw [if_neg (by simp [hc])]
    simp [hc]
  · simp only [Bool.not_eq_true] at hc
    by_cases hxp : (x && (startsWithL ("* ".data) n || startsWithL ("[+] ".data) n)) = true
    · simp only [Bool.and_eq_true] at hxp
      rw [if_pos ⟨by simp [hc], by simp [hxp.1], hxp.2⟩]
      simp [hxp.1, hxp.2]
    · simp only [Bool.not_eq_true] at hxp
      rw [if_neg (by
        rintro ⟨-, hx, hp⟩
        rw [hx, hp] at hxp
        simp at hxp)]
      simp [hc, hxp]

@[simp] theorem applyXeevCatchup_catchupMode (x : Bool) (n : Str) (c : Channel) :
    (applyXeevCatchup x n c).catchupMode
      = if c.hasCatchup = false ∧
            (x && (startsWithL ("* ".data) n || startsWithL ("[+] ".data) n)) = true
        then CatchupMode.XTREAM_CODES else c.catchupMode := by
  unfold applyXeevCatchup
  by_cases hc : c.hasCatchup = true
  · rw [if_neg (by simp [hc]), if_neg (by simp [hc])]
  · simp only [Bool.not_eq_true] at hc
    by_cases hxp : (x && (startsWithL ("* ".data) n || startsWithL ("[+] ".data) n)) = true
    · have hxp2 := hxp
      rw [Bool.and_eq_true] at hxp2
      rw [if_pos ⟨by simp [hc], by simp [hxp2.1], hxp2.2⟩, if_pos ⟨hc, hxp⟩]
    · simp only [Bool.not_eq_true] at hxp
      rw [if_neg (by
          rintro ⟨-, hx, hp⟩
          rw [hx, hp] at hxp
          simp at hxp),
        if_neg (by simp [hxp])]

@[simp] theorem applySiptvTimeshift_hasCatchup (n : Int) (c : Channel) :
    (applySiptvTimeshift n c).hasCatchup = (c.hasCatchup || decide (n > 0)) := by
  unfold applySiptvTimeshift
  by_cases hc : c.hasCatchup = true
  · rw [if_neg (by simp [hc])]
    simp [hc]
  · simp only [Bool.not_eq_true] at hc
    by_cases hn : n > 0
    · rw [if_pos ⟨by simp [hc], hn⟩]
      simp [hn]
    · rw [if_neg (by tauto)]
      simp [hc, hn]

@[simp] theorem applySiptvTimeshift_catchupMode (n : Int) (c : Channel) :
    (applySiptvTimeshift n c).catchupMode
      = if c.hasCatchup = false ∧ n > 0 then CatchupMode.TIMESHIFT else c.catchupMode := by
  unfold applySiptvTimeshift
  by_cases hc : c.hasCatchup = true
  · rw [if_neg (by simp [hc]), if_neg (by simp [hc])]
  · simp only [Bool.not_eq_true] at hc
    by_cases hn : n > 0
    · rw [if_pos ⟨by simp [hc], hn⟩, if_pos ⟨hc, hn⟩]
    · rw [if_neg (by tauto), if_neg (by tauto)]

/-!
**Claim theorems**
-/

/-- C1 (code evidence): the header `catchup-days` default is not applied
when the channel's `catchup-days` attribute is absent — the source gates
that fallback on the header `catchup-source` being non-empty instead of the
header `catchup-days`.  With header `catchup-days="5"` and no header
`catchup-source`, a plain channel line falls through to the global
configuration default (here 7); adding an unrelated header
`catchup-source` makes the header's 5 apply. -/
theorem catchupDays_header_fallback_gated_on_catchupSource :
    (ParseIntoChannel { catchupDays := 7 } { m_catchupDays := ("5".data) } []
        ("#EXTINF:-1,News".data) {} {} [] 0 0 false).channel.catchupDays = 7 ∧
    (ParseIntoChannel { catchupDays := 7 }
        { m_catchupDays := ("5".data), m_catchupSource := ("x".data) } []
        ("#EXTINF:-1,News".data) {} {} [] 0 0 false).channel.catchupDays = 5 := by
  constructor <;> rfl

/-- C2 (code evidence): with a header `catchup-source` and a channel line
whose own `catchup-source` is empty, the channel record's catchupSource
stays empty after `ParseIntoChannel` — the header fallback (source lines
334-335) only updates a local variable, after the channel field was already
set, and the local is never read again. -/
theorem catchupSource_header_fallback_never_reaches_channel :
    (ParseIntoChannel {} { m_catchupSource := ("http://cu/x".data) } []
        ("#EXTINF:-1,News".data) {} {} [] 0 0 false).channel.catchupSource = [] := by
  rfl

/-- C8: a malformed `#EXTINF` line — no colon, no comma, or the chosen
comma not after the first colon — makes `ParseIntoChannel` return the
empty string and leave the scratch channel, the scratch media entry and the
group-id list (and the provider registry) unchanged; the embedding is a
total function, so no exception escapes. -/
theorem parseIntoChannel_malformed_inert (s : Settings) (header : M3UHeaderStrings)
    (providers : List Provider) (line : Str) (channel : Channel) (mediaEntry : MediaEntry)
    (groupIdList : List Int) (epgTimeShift catchupCorrectionSecs : Int) (xeevCatchup : Bool)
    (h : findChar ':' line = none ∨ chosenCommaIndex line = none ∨
      ∃ ci mi, findChar ':' line = some ci ∧ chosenCommaIndex line = some mi ∧ ¬mi > ci) :
    ParseIntoChannel s header providers line channel mediaEntry groupIdList epgTimeShift
        catchupCorrectionSecs xeevCatchup
      = { groupTitle := [], channel := channel, mediaEntry := mediaEntry,
          groupIdList := groupIdList, providers := providers } := by
  unfold ParseIntoChannel
  rcases h with h | h | ⟨ci, mi, hci, hmi, hnot⟩
  · rw [h]
  · rcases hci : findChar ':' line with _ | ci
    · rfl
    · rw [h]
  · rw [hci, hmi]
    dsimp only
    rw [if_neg hnot]

theorem parseIntoChannel_malformed_inert_witness :
    ParseIntoChannel {} {} [] ("#EXTINF -1 missing both".data) {} {} [] 0 0 false
      = { groupTitle := [], channel := {}, mediaEntry := {}, groupIdList := [],
          providers := [] } :=
  parseIntoChannel_malformed_inert {} {} [] ("#EXTINF -1 missing both".data) {} {} [] 0 0
    false (Or.inl rfl)

/-- C10: whenever the catchup-enabled setting is off, `IsEPGTagPlayable`
returns `PVR_ERROR_NOT_IMPLEMENTED` immediately, for every tag, channel
store, EPG lookup and clock value, and leaves the playability flag
unwritten (`none`). -/
theorem isEPGTagPlayable_not_implemented_when_disabled (s : Settings)
    (channels : List Channel) (epgLookup : Channel → Int → Option EpgEntry)
    (tag : EpgTag) (now : Int) (h : s.catchupEnabled = false) :
    IsEPGTagPlayable s channels epgLookup tag now = (PVRError.NOT_IMPLEMENTED, none) := by
  unfold IsEPGTagPlayable
  rw [if_pos (by simp [h])]

theorem isEPGTagPlayable_not_implemented_when_disabled_witness :
    IsEPGTagPlayable {} [] (fun _ _ => none) {} 0 = (PVRError.NOT_IMPLEMENTED, none) :=
  isEPGTagPlayable_not_implemented_when_disabled {} [] (fun _ _ => none) {} 0 rfl

/-- C4: on a well-formed `#EXTINF` line whose effective catchup token
(attribute `catchup`, falling back to `catchup-type`, falling back to the
header default) is one of the recognised tokens (case-insensitively), the
parsed channel has `hasCatchup = true`, its mode given by the spec's token
table (`default→DEFAULT`, `append→APPEND`, `shift→SHIFT`,
`flussonic`/`flussonic-hls`/`flussonic-ts`/`fs→FLUSSONIC`,
`xc→XTREAM_CODES`, `vod→VOD`), and — starting from a scratch channel whose
flag is clear — `catchupTSStream` set exactly when the token is
`flussonic-ts` or `fs`. -/
theorem parseIntoChannel_catchup_mode_selection (s : Settings) (header : M3UHeaderStrings)
    (providers : List Provider) (line : Str) (channel : Channel) (mediaEntry : MediaEntry)
    (groupIdList : List Int) (epgTimeShift catchupCorrectionSecs : Int) (xeevCatchup : Bool)
    (ci mi : Nat) (m : CatchupMode)
    (hci : findChar ':' line = some ci)
    (hmi : chosenCommaIndex line = some mi)
    (hgt : mi > ci)
    (htok : specCatchupModeMap
        (effectiveCatchup header (substrLen line (ci + 1) (mi - ci - 1))) = some m)
    (hts : channel.catchupTSStream = false) :
    (ParseIntoChannel s header providers line channel mediaEntry groupIdList epgTimeShift
        catchupCorrectionSecs xeevCatchup).channel.hasCatchup = true ∧
    (ParseIntoChannel s header providers line channel mediaEntry groupIdList epgTimeShift
        catchupCorrectionSecs xeevCatchup).channel.catchupMode = m ∧
    (ParseIntoChannel s header providers line channel mediaEntry groupIdList epgTimeShift
        catchupCorrectionSecs xeevCatchup).channel.catchupTSStream
      = (eqNoCase (effectiveCatchup header (substrLen line (ci + 1) (mi - ci - 1)))
            ("flussonic-ts".data) ||
         eqNoCase (effectiveCatchup header (substrLen line (ci + 1) (mi - ci - 1)))
            ("fs".data)) := by
  have hred : ParseIntoChannel s header providers line channel mediaEntry groupIdList
      epgTimeShift catchupCorrectionSecs xeevCatchup
      = parseSuccessBody s header providers line channel mediaEntry groupIdList epgTimeShift
          catchupCorrectionSecs xeevCatchup ci mi := by
    unfold ParseIntoChannel
    rw [hci, hmi]
    dsimp only
    rw [if_pos hgt]
  rw [hred]
  unfold parseSuccessBody
  refine ⟨?_, ?_, ?_⟩ <;>
    simp [htok, hts, apply_ite Channel.hasCatchup, apply_ite Channel.catchupMode,
      apply_ite Channel.catchupTSStream]

theorem parseIntoChannel_catchup_mode_selection_witness :
    (ParseIntoChannel {} {} [] ("#EXTINF:-1 catchup=\"flussonic-ts\",N".data) {} {} []
        0 0 false).channel.hasCatchup = true ∧
    (ParseIntoChannel {} {} [] ("#EXTINF:-1 catchup=\"flussonic-ts\",N".data) {} {} []
        0 0 false).channel.catchupMode = CatchupMode.FLUSSONIC := by
  have h := parseIntoChannel_catchup_mode_selection {} {} []
    ("#EXTINF:-1 catchup=\"flussonic-ts\",N".data) {} {} [] 0 0 false 7 33
    CatchupMode.FLUSSONIC rfl rfl (by decide) rfl rfl
  exact ⟨h.1, h.2.1⟩

/-- C7: on a well-formed `#EXTINF` line, a present `tvg-shift` attribute is
parsed as decimal hours and stored as that value times 3600 seconds
truncated toward zero (`RatPair.trunc` is truncation toward zero);
`"1.5"` yields 5400 seconds; and when the attribute is absent the channel's
tvgShift is the header-derived `epgTimeShift` default instead. -/
theorem parseIntoChannel_tvg_shift (s : Settings) (header : M3UHeaderStrings)
    (providers : List Provider) (line : Str) (channel : Channel) (mediaEntry : MediaEntry)
    (groupIdList : List Int) (epgTimeShift catchupCorrectionSecs : Int) (xeevCatchup : Bool)
    (ci mi : Nat)
    (hci : findChar ':' line = some ci)
    (hmi : chosenCommaIndex line = some mi)
    (hgt : mi > ci) :
    (ReadMarkerValue (substrLen line (ci + 1) (mi - ci - 1)) TVG_INFO_SHIFT_MARKER ≠ [] →
      (ParseIntoChannel s header providers line channel mediaEntry groupIdList epgTimeShift
          catchupCorrectionSecs xeevCatchup).channel.tvgShift
        = ((atofL (ReadMarkerValue (substrLen line (ci + 1) (mi - ci - 1))
            TVG_INFO_SHIFT_MARKER)).mulInt 3600).trunc) ∧
    (ReadMarkerValue (substrLen line (ci + 1) (mi - ci - 1)) TVG_INFO_SHIFT_MARKER = [] →
      (ParseIntoChannel s header providers line channel mediaEntry groupIdList epgTimeShift
          catchupCorrectionSecs xeevCatchup).channel.tvgShift = epgTimeShift) ∧
    ((atofL ("1.5".data)).mulInt 3600).trunc = 5400 ∧
    (ParseIntoChannel {} {} [] ("#EXTINF:-1 tvg-shift=\"1.5\",N".data) {} {} []
        0 0 false).channel.tvgShift = 5400 := by
  have hred : ParseIntoChannel s header providers line channel mediaEntry groupIdList
      epgTimeShift catchupCorrectionSecs xeevCatchup
      = parseSuccessBody s header providers line channel mediaEntry groupIdList epgTimeShift
          catchupCorrectionSecs xeevCatchup ci mi := by
    unfold ParseIntoChannel
    rw [hci, hmi]
    dsimp only
    rw [if_pos hgt]
  refine ⟨fun h => ?_, fun h => ?_, by decide, by decide⟩
  · rw [hred]
    unfold parseSuccessBody
    simp [h, apply_ite Channel.tvgShift]
  · rw [hred]
    unfold parseSuccessBody
    simp [h, apply_ite Channel.tvgShift]

theorem parseIntoChannel_tvg_shift_witness :
    (ParseIntoChannel {} {} [] ("#EXTINF:-1 tvg-shift=\"1.5\",N".data) {} {} []
        7 0 false).channel.tvgShift
      = ((atofL (ReadMarkerValue
          (substrLen ("#EXTINF:-1 tvg-shift=\"1.5\",N".data) 8 18) TVG_INFO_SHIFT_MARKER)).mulInt
          3600).trunc :=
  (parseIntoChannel_tvg_shift {} {} [] ("#EXTINF:-1 tvg-shift=\"1.5\",N".data) {} {} []
    7 0 false 7 26 rfl rfl (by decide)).1 (by decide)

/-- C5: on an `#EXTINF` line that contains a double quote and whose trimmed
tail after the last double quote begins with a comma, `ParseIntoChannel`
takes the display name to be the trimmed, UTF-8-converted text after the
first comma following that last quote — even when commas appear inside
quoted attribute values; in particular
`#EXTINF:-1 tvg-name="A,B",C` yields display name `C`. -/
theorem parseIntoChannel_name_after_last_quote (s : Settings) (header : M3UHeaderStrings)
    (providers : List Provider) (line : Str) (channel : Channel) (mediaEntry : MediaEntry)
    (groupIdList : List Int) (epgTimeShift catchupCorrectionSecs : Int) (xeevCatchup : Bool)
    (q k ci : Nat)
    (hq : rfindChar '"' line = some q)
    (hstart : startsWithL (",".data) (trimWS (line.drop (q + 1))) = true)
    (hk : findChar ',' (line.drop (q + 1)) = some k)
    (hci : findChar ':' line = some ci)
    (hgt : q + k + 1 > ci) :
    (ParseIntoChannel s header providers line channel mediaEntry groupIdList epgTimeShift
        catchupCorrectionSecs xeevCatchup).channel.channelName
      = unknownToUTF8 (trimWS (line.drop (q + k + 2))) ∧
    (ParseIntoChannel {} {} [] ("#EXTINF:-1 tvg-name=\"A,B\",C".data) {} {} []
        0 0 false).channel.channelName = ("C".data) := by
  have hmi : chosenCommaIndex line = some (q + k + 1) := by
    unfold chosenCommaIndex
    rw [hq]
    dsimp only
    simp [hstart, hk]
  have hred : ParseIntoChannel s header providers line channel mediaEntry groupIdList
      epgTimeShift catchupCorrectionSecs xeevCatchup
      = parseSuccessBody s header providers line channel mediaEntry groupIdList epgTimeShift
          catchupCorrectionSecs xeevCatchup ci (q + k + 1) := by
    unfold ParseIntoChannel
    rw [hci, hmi]
    dsimp only
    rw [if_pos hgt]
  refine ⟨?_, by rfl⟩
  rw [hred]
  unfold parseSuccessBody
  simp [apply_ite Channel.channelName]

theorem parseIntoChannel_name_after_last_quote_witness :
    (ParseIntoChannel {} {} [] ("#EXTINF:-1 tvg-name=\"A,B\",C".data) {} {} []
        0 0 false).channel.channelName
      = unknownToUTF8 (trimWS (("#EXTINF:-1 tvg-name=\"A,B\",C".data).drop (24 + 0 + 2))) :=
  (parseIntoChannel_name_after_last_quote {} {} [] ("#EXTINF:-1 tvg-name=\"A,B\",C".data)
    {} {} [] 0 0 false 24 0 7 rfl (by decide) rfl rfl (by decide)).1

/-- C3: with catchup enabled, `IsEPGTagPlayable` returns `NO_ERROR` and
reports a tag playable iff its channel exists and supports catchup, and
either (when the channel's catchupDays is the `IGNORE_CATCHUP_DAYS`
sentinel) the EPG entry looked up at the tag's start has a non-empty
catchup id, or otherwise the start is strictly before now, at least
`now - catchupDays * 86400`, and — under the only-finished-programmes
setting — the end is before now.  In particular, with `catchupDays = 2`
and `now = 1000000`, a tag starting at `now - 86400` is playable and one
starting at `now - 3 * 86400` is not. -/
theorem isEPGTagPlayable_day_window (s : Settings) (channels : List Channel)
    (epgLookup : Channel → Int → Option EpgEntry) (tag : EpgTag) (now : Int)
    (h : s.catchupEnabled = true) :
    (IsEPGTagPlayable s channels epgLookup tag now).1 = PVRError.NO_ERROR ∧
    ((IsEPGTagPlayable s channels epgLookup tag now).2 = some true ↔
      (∃ c, GetChannel channels tag.uniqueChannelId = some c ∧ c.hasCatchup = true ∧
        (if c.catchupDays = IGNORE_CATCHUP_DAYS then
          ∃ e, epgLookup c tag.startTime = some e ∧ e.catchupId ≠ []
        else
          tag.startTime < now ∧ now - c.catchupDays * 86400 ≤ tag.startTime ∧
            (s.catchupOnlyOnFinishedProgrammes = true → tag.endTime < now)))) ∧
    (IsEPGTagPlayable { catchupEnabled := true }
        [{ uniqueId := 1, hasCatchup := true, catchupDays := 2 }] (fun _ _ => none)
        { uniqueChannelId := 1, startTime := 1000000 - 86400, endTime := 1000000 - 80000 }
        1000000).2 = some true ∧
    (IsEPGTagPlayable { catchupEnabled := true }
        [{ uniqueId := 1, hasCatchup := true, catchupDays := 2 }] (fun _ _ => none)
        { uniqueChannelId := 1, startTime := 1000000 - 3 * 86400,
          endTime := 1000000 - 200000 } 1000000).2 = some false := by
  refine ⟨?_, ?_, by decide, by decide⟩
  · unfold IsEPGTagPlayable
    rw [if_neg (by simp [h])]
  · unfold IsEPGTagPlayable
    rw [if_neg (by simp [h])]
    dsimp only
    rcases hc : GetChannel channels tag.uniqueChannelId with _ | c
    · simp [hc]
    · simp only [hc, Option.getD_some, Option.isSome_some]
      by_cases hic : c.catchupDays = IGNORE_CATCHUP_DAYS
      · rw [if_pos (by simp [Channel.ignoreCatchupDays, hic])]
        rcases he : epgLookup c tag.startTime with _ | e
        · simp [he, h, hic, Channel.isCatchupSupported]
        · simp [he, h, hic, Channel.isCatchupSupported, bne_iff_ne]
      · rw [if_neg (by simp [Channel.ignoreCatchupDays, hic])]
        cases hof : s.catchupOnlyOnFinishedProgrammes
        · simp [h, hic, hof, Channel.isCatchupSupported, Channel.getCatchupDaysInSeconds,
            and_assoc, ge_iff_le]
        · simp [h, hic, hof, Channel.isCatchupSupported, Channel.getCatchupDaysInSeconds,
            and_assoc, ge_iff_le]

theorem isEPGTagPlayable_day_window_witness :
    (IsEPGTagPlayable { catchupEnabled := true } [] (fun _ _ => none) {} 0).1
      = PVRError.NO_ERROR :=
  (isEPGTagPlayable_day_window { catchupEnabled := true } [] (fun _ _ => none) {} 0 rfl).1

theorem getLinesAux_no_newline (l : Str) (h : '\n' ∉ l) :
    ∀ acc : Str, getLinesAux l acc = [acc.reverse ++ l] := by
  induction l with
  | nil => intro acc; simp [getLinesAux]
  | cons c tl ih =>
    intro acc
    have hc : ¬c = '\n' := fun he => h (by simp [he])
    have htl : '\n' ∉ tl := fun hm => h (by simp [hm])
    unfold getLinesAux
    rw [if_neg hc, ih htl]
    simp

theorem getLines_single (l : Str) (hne : l ≠ []) (h : '\n' ∉ l) : getLines l = [l] := by
  rcases l with _ | ⟨a, tl⟩
  · exact absurd rfl hne
  · unfold getLines
    dsimp only
    rw [if_neg (fun hg => h (mem_of_getLast?_eq _ '\n' hg))]
    rw [getLinesAux_no_newline _ h []]
    simp

/-- C9: loading a playlist whose content is a single `#EXTM3U` header line
succeeds — `LoadPlayList` returns `true`, the channel and media stores (and
the group and provider stores) hold zero entries, and the `url-tvg` (or
`x-tvg-url`) value read from the header is stored into the settings; the
empty parse result is not a failure. -/
theorem loadPlayList_header_only (s : Settings) (cfg : Channel → Channel) (content : Str)
    (hloc : s.m3uLocation ≠ [])
    (hnl : '\n' ∉ content)
    (hhdr : startsWithL M3U_START_MARKER (stripBOM (trimmedLine content)) = true) :
    LoadPlayList s (some content) cfg
      = { ok := true, channels := [], groups := [], providers := [], media := [],
          tvgUrl := some (headerTvgUrl (stripBOM (trimmedLine content))) } := by
  have hcne : content ≠ [] := by
    rintro rfl
    exact absurd hhdr (by decide)
  have htne : ¬trimmedLine content = [] := by
    intro ht
    rw [ht] at hhdr
    exact absurd hhdr (by decide)
  unfold LoadPlayList
  rw [if_neg hloc]
  dsimp only
  rw [getLines_single content hcne hnl]
  simp only [List.foldl_cons, List.foldl_nil]
  unfold processLine
  rw [if_neg htne]
  dsimp only
  rw [if_pos hhdr]
  unfold processHeader
  rfl

theorem loadPlayList_header_only_witness :
    LoadPlayList { m3uLocation := ("f".data) }
        (some ("#EXTM3U url-tvg=\"http://x/epg.xml\"".data)) id
      = { ok := true, channels := [], groups := [], providers := [], media := [],
          tvgUrl := some (headerTvgUrl (stripBOM (trimmedLine
            ("#EXTM3U url-tvg=\"http://x/epg.xml\"".data)))) } :=
  loadPlayList_header_only { m3uLocation := ("f".data) } id
    ("#EXTM3U url-tvg=\"http://x/epg.xml\"".data) (by decide) (by decide) (by decide)

end IptvSimple
